import Mathlib

/-
Verification of the react-sticky port: a shallow embedding of
src/Container.tsx and src/Sticky.tsx.

Geometry values (pixel distances from getBoundingClientRect, offsetTop,
scrollTop) are modelled as rationals.  A JS number that may be undefined
(or that has become NaN through arithmetic on undefined) is modelled as
Option Rat with none for undefined/NaN: in JS every relational comparison
against undefined or NaN is false, and arithmetic propagates NaN, which is
exactly the behaviour of the jsLe/jsGt/jsSub helpers below.
-/

namespace ReactSticky

/-- JS relational comparison x <= y where x may be undefined/NaN
(undefined <= y is false in JS). -/
def jsLe : Option ℚ → ℚ → Bool
  | none, _ => false
  | some x, y => decide (x ≤ y)

/-- JS relational comparison x > y where x may be undefined/NaN
(undefined > y is false in JS). -/
def jsGt : Option ℚ → ℚ → Bool
  | none, _ => false
  | some x, y => decide (y < x)

/-- JS subtraction x - y where x may be undefined/NaN; the result is then
NaN, which none also stands for. -/
def jsSub : Option ℚ → ℚ → Option ℚ
  | none, _ => none
  | some x, y => some (x - y)

/-- The style object published to the render prop.  Each CSS property is
optional; a fresh object has every property absent.  clipInset holds the
pixel argument of the clip-path inset written by the relative branch. -/
structure Style where
  position : Option String := none
  top : Option ℚ := none
  left : Option ℚ := none
  width : Option ℚ := none
  clipInset : Option ℚ := none
  transform : Option String := none
deriving DecidableEq

/-- Sticky props (src/Sticky.tsx).  topOffset and bottomOffset are optional
and the code reads them with a nullish-coalescing default of 0. -/
structure StickyProps where
  relative : Bool := false
  topOffset : Option ℚ := none
  bottomOffset : Option ℚ := none
  disableCompensation : Bool := false
  disableHardwareAcceleration : Bool := false

/-- The DOM geometry read by the Sticky handlers: the container parent node
returned by context.getParent, the placeholder div, and the measured
content node.  Optional fields model nodes or rects that may be absent. -/
structure DomGeom where
  parentOffsetTop : ℚ := 0
  parentScrollTop : ℚ := 0
  offsetParentScrollTop : Option ℚ := none
  placeholderLeft : Option ℚ := none
  placeholderWidth : Option ℚ := none
  placeholderOffsetTop : Option ℚ := none
  contentHeight : Option ℚ := none

/-- The geometry sample broadcast by the container: top and bottom of the
container root node, undefined when the root node is not mounted. -/
structure Sample where
  distanceFromTop : Option ℚ
  distanceFromBottom : Option ℚ

/-- The Sticky component state (src/Sticky.tsx, useState initialiser:
all numbers 0, booleans false, style empty). -/
structure StickyState where
  isSticky : Bool := false
  wasSticky : Bool := false
  distanceFromTop : Option ℚ := some 0
  distanceFromBottom : Option ℚ := some 0
  calculatedHeight : ℚ := 0
  style : Style := {}

/-- Container notifySubscribers measurement (src/Container.tsx lines
52-61): node.current?.getBoundingClientRect() ?? \x7b\x7d, so when the root
node is absent both distances are undefined. -/
def measureSample (nodeRect : Option (ℚ × ℚ)) : Sample :=
  match nodeRect with
  | some tb => { distanceFromTop := some tb.1, distanceFromBottom := some tb.2 }
  | none => { distanceFromTop := none, distanceFromBottom := none }

/-- src/Sticky.tsx lines 187-192: in relative mode distanceFromTop is
overwritten from the parent scroll offset and the placeholder offsetTop;
otherwise the broadcast sample value is used. -/
def effectiveDistanceFromTop (p : StickyProps) (g : DomGeom) (sample : Sample) :
    Option ℚ :=
  if p.relative then
    some (-(g.parentScrollTop + g.parentOffsetTop) + g.placeholderOffsetTop.getD 0)
  else
    sample.distanceFromTop

/-- src/Sticky.tsx lines 198-200: the threshold conjunction.  Offsets are
read with default 0. -/
def computeIsSticky (p : StickyProps) (distanceFromTop distanceFromBottom : Option ℚ) :
    Bool :=
  jsLe distanceFromTop (-(p.topOffset.getD 0)) &&
    jsGt distanceFromBottom (-(p.bottomOffset.getD 0))

/-- src/Sticky.tsx calculateStyle (lines 140-177).  bottomDifference is
distanceFromBottom - bottomOffset - calculatedHeight.  Not sticky gives the
empty object; sticky relative gives position absolute with a clip-path
correction once bottomDifference <= 0; sticky viewport gives position fixed
with top clamped to 0 while bottomDifference > 0. -/
def calculateStyle (p : StickyProps) (g : DomGeom) (isSticky : Bool)
    (distanceFromBottom : Option ℚ) (calculatedHeight : ℚ) : Style :=
  let bottomDifference : Option ℚ :=
    jsSub distanceFromBottom (p.bottomOffset.getD 0 + calculatedHeight)
  if isSticky then
    if p.relative then
      let baseTop : ℚ := g.parentOffsetTop - g.offsetParentScrollTop.getD 0
      if jsLe bottomDifference 0 then
        { position := some "absolute"
          top := bottomDifference.map (fun bd => baseTop + bd)
          width := g.placeholderWidth
          clipInset := bottomDifference.map (fun bd => -bd) }
      else
        { position := some "absolute"
          top := some baseTop
          width := g.placeholderWidth }
    else
      { position := some "fixed"
        top := if jsGt bottomDifference 0 then some 0 else bottomDifference
        left := g.placeholderLeft
        width := g.placeholderWidth }
  else
    {}

/-- src/Sticky.tsx lines 210-212: unless disableHardwareAcceleration is
set, the GPU-compositing hint is written onto the style object. -/
def applyHwAccel (p : StickyProps) (style : Style) : Style :=
  if !p.disableHardwareAcceleration then
    { style with transform := some "translateZ(0)" }
  else
    style

/-- src/Sticky.tsx handleContainerEvent (lines 179-236): one recomputation
cycle.  calculatedHeight is the measured content height (0 when the content
node is absent); wasSticky is the previous isSticky; the stored
distanceFromBottom has calculatedHeight subtracted. -/
def handleContainerEvent (p : StickyProps) (g : DomGeom) (sample : Sample)
    (state : StickyState) : StickyState :=
  let distanceFromTop : Option ℚ := effectiveDistanceFromTop p g sample
  let calculatedHeight : ℚ := g.contentHeight.getD 0
  let isSticky : Bool := computeIsSticky p distanceFromTop sample.distanceFromBottom
  { isSticky := isSticky
    wasSticky := state.isSticky
    distanceFromTop := distanceFromTop
    distanceFromBottom := jsSub sample.distanceFromBottom calculatedHeight
    calculatedHeight := calculatedHeight
    style := applyHwAccel p
      (calculateStyle p g isSticky sample.distanceFromBottom calculatedHeight) }

/-- src/Sticky.tsx lines 214-217: the paddingBottom written onto the
placeholder during handleContainerEvent.  Note the source consults only
isSticky and calculatedHeight here. -/
def handlerPaddingWrite (p : StickyProps) (g : DomGeom) (sample : Sample)
    (state : StickyState) : ℚ :=
  let st := handleContainerEvent p g sample state
  if st.isSticky then st.calculatedHeight else 0

/-- src/Sticky.tsx lines 250-254: the paddingBottom written by the effect
that runs when disableCompensation changes (and on mount). -/
def compensationEffectPadding (p : StickyProps) (state : StickyState) : ℚ :=
  if p.disableCompensation then 0
  else if state.isSticky then state.calculatedHeight else 0

/-- Subscriber handles are identified abstractly. -/
abbrev Handler := ℕ

/-- src/Container.tsx lines 37-39: subscribe appends the handler. -/
def subscribe (subs : List Handler) (h : Handler) : List Handler :=
  subs ++ [h]

/-- src/Container.tsx lines 41-46: unsubscribe filters out every occurrence
of the handler and then appends the handler again (this is what the source
literally does). -/
def unsubscribe (subs : List Handler) (h : Handler) : List Handler :=
  subs.filter (fun current => current != h) ++ [h]

/-- src/Container.tsx notifySubscribers (lines 48-67), event side: when no
frame callback is pending, one is scheduled and the pending flag is set;
otherwise nothing happens.  Returns the new pending flag and whether a
callback was scheduled by this event. -/
def notifyStep (framePending : Bool) : Bool × Bool :=
  if framePending then (framePending, false) else (true, true)

/-- src/Container.tsx line 53: the scheduled callback clears the pending
flag when it fires. -/
def frameFireStep (_framePending : Bool) : Bool :=
  false

/-- Number of frame callbacks scheduled by a run of n qualifying events
with no frame boundary in between, starting from a given pending flag. -/
def schedCount : Bool → ℕ → ℕ
  | _, 0 => 0
  | framePending, n + 1 =>
    (if (notifyStep framePending).2 then 1 else 0) +
      schedCount (notifyStep framePending).1 n

/-- A broadcast over a snapshot of the registry (the subscribers list
captured by the scheduled callback).  Each snapshotted handler is invoked
once in order; a handler may call unsubscribe on some handlers during its
invocation (given by effects), which updates the live registry but not the
snapshot being iterated, since setSubscribers always builds a new array.
Returns the list of invoked handlers and the final registry. -/
def runBroadcast (effects : Handler → List Handler) :
    List Handler → List Handler → List Handler × List Handler
  | [], registry => ([], registry)
  | h :: rest, registry =>
    let registry1 := (effects h).foldl unsubscribe registry
    let out := runBroadcast effects rest registry1
    (h :: out.1, out.2)

/-- Registry operations a Sticky instance can request from the container
context. -/
inductive CtxAction where
  | sub (h : Handler)
  | unsub (h : Handler)
deriving DecidableEq

/-- Effect of one context action on the registry. -/
def applyAction (registry : List Handler) : CtxAction → List Handler
  | CtxAction.sub h => subscribe registry h
  | CtxAction.unsub h => unsubscribe registry h

/-- src/Sticky.tsx lines 238-248 (mount effect): when the context has no
subscribe capability a TypeError is thrown synchronously; otherwise exactly
one subscription of the handler is performed. -/
def stickyMountEffect (hasSubscribe : Bool) (handler : Handler) :
    Except String (List CtxAction) :=
  if !hasSubscribe then
    Except.error "Expected Sticky to be mounted within StickyContainer"
  else
    Except.ok [CtxAction.sub handler]

/-- src/Sticky.tsx lines 245-247 (unmount cleanup): one unsubscribe call
with the same handler. -/
def stickyUnmountEffect (handler : Handler) : List CtxAction :=
  [CtxAction.unsub handler]

/- Supporting lemmas. -/

/-- The stored isSticky is the threshold conjunction over the effective
distances. -/
theorem handle_isSticky_eq (p : StickyProps) (g : DomGeom) (s : Sample)
    (st : StickyState) :
    (handleContainerEvent p g s st).isSticky
      = computeIsSticky p (effectiveDistanceFromTop p g s) s.distanceFromBottom :=
  rfl

/-- The stored style is the computed style with the acceleration hint
applied. -/
theorem handle_style_eq (p : StickyProps) (g : DomGeom) (s : Sample)
    (st : StickyState) :
    (handleContainerEvent p g s st).style
      = applyHwAccel p
          (calculateStyle p g ((handleContainerEvent p g s st).isSticky)
            s.distanceFromBottom (g.contentHeight.getD 0)) :=
  rfl

/-- Once the pending flag is up, a run of events schedules nothing. -/
theorem schedCount_true (n : ℕ) : schedCount true n = 0 := by
  induction n with
  | zero => rfl
  | succ n ih => simpa [schedCount, notifyStep] using ih

/-- A broadcast invokes exactly the snapshotted handlers, in order,
whatever unsubscriptions its handlers perform. -/
theorem runBroadcast_fst (effects : Handler → List Handler)
    (snapshot registry : List Handler) :
    (runBroadcast effects snapshot registry).1 = snapshot := by
  induction snapshot generalizing registry with
  | nil => rfl
  | cons h rest ih => simp [runBroadcast, ih]

/- Claim theorems. -/

/-- C1: for every geometry sample processed by the recomputation handler,
isSticky equals (distanceFromTop <= -topOffset) AND
(distanceFromBottom > -bottomOffset) with both offsets defaulting to 0;
at distanceFromTop = -topOffset the top entry condition is satisfied
(isSticky reduces to the bottom condition alone), and at
distanceFromBottom = -bottomOffset the element is not sticky. -/
theorem c1_isSticky_threshold :
    (∀ (t b : Option ℚ) (dc dh : Bool) (g : DomGeom) (dft dfb : ℚ)
        (st : StickyState),
        (handleContainerEvent
            { relative := false, topOffset := t, bottomOffset := b,
              disableCompensation := dc, disableHardwareAcceleration := dh }
            g { distanceFromTop := some dft, distanceFromBottom := some dfb }
            st).isSticky
          = (decide (dft ≤ -(t.getD 0)) && decide (dfb > -(b.getD 0)))) ∧
    (∀ (t b : Option ℚ) (dc dh : Bool) (g : DomGeom) (dfb : ℚ)
        (st : StickyState),
        (handleContainerEvent
            { relative := false, topOffset := t, bottomOffset := b,
              disableCompensation := dc, disableHardwareAcceleration := dh }
            g { distanceFromTop := some (-(t.getD 0)),
                distanceFromBottom := some dfb } st).isSticky
          = decide (dfb > -(b.getD 0))) ∧
    (∀ (t b : Option ℚ) (dc dh : Bool) (g : DomGeom) (dft : ℚ)
        (st : StickyState),
        (handleContainerEvent
            { relative := false, topOffset := t, bottomOffset := b,
              disableCompensation := dc, disableHardwareAcceleration := dh }
            g { distanceFromTop := some dft,
                distanceFromBottom := some (-(b.getD 0)) } st).isSticky
          = false) := by
  refine ⟨fun t b dc dh g dft dfb st => ?_, fun t b dc dh g dfb st => ?_,
    fun t b dc dh g dft st => ?_⟩
  · rfl
  · simp [handle_isSticky_eq, computeIsSticky, effectiveDistanceFromTop, jsLe, jsGt]
  · simp [handle_isSticky_eq, computeIsSticky, effectiveDistanceFromTop, jsLe, jsGt]

/-- C2: the claim says the per-cycle placeholder padding is forced to 0
when disableCompensation is true.  The code disagrees: the padding write
inside handleContainerEvent (src/Sticky.tsx lines 214-217) never consults
disableCompensation, so with disableCompensation = true, a sticky element
of height 50 still gets padding 50 on a recomputation cycle. -/
theorem c2_padding_ignores_disableCompensation :
    handlerPaddingWrite
        { disableCompensation := true }
        { contentHeight := some 50 }
        { distanceFromTop := some (-5), distanceFromBottom := some 100 }
        {} = 50 := by
  decide

/-- C3: the claim says unsubscribe removes exactly the occurrences of the
handler and is a no-op on an absent handler.  The code disagrees
(src/Container.tsx lines 41-46): it filters the handler out and then
appends it again, so unsubscribing an absent handler 7 from the empty
registry yields [7], and unsubscribing 7 from [1, 7, 2, 7] yields
[1, 2, 7]. -/
theorem c3_unsubscribe_reappends :
    unsubscribe [] 7 = [7] ∧ unsubscribe [1, 7, 2, 7] 7 = [1, 2, 7] := by
  decide

/-- C4 counterexample: with hardware acceleration enabled (the default), a
non-sticky cycle does not publish an empty style object: the style carries
the GPU-compositing hint, because src/Sticky.tsx lines 210-212 write the
transform unconditionally. -/
theorem c4_nonsticky_style_not_empty :
    (handleContainerEvent {} {}
        { distanceFromTop := some 5, distanceFromBottom := some 100 }
        {}).isSticky = false ∧
    (handleContainerEvent {} {}
        { distanceFromTop := some 5, distanceFromBottom := some 100 }
        {}).style ≠ ({} : Style) := by
  constructor
  · rfl
  · decide

/-- C4 amended: with hardware acceleration enabled, a non-sticky cycle
publishes the style whose only property is the GPU hint transform
translateZ(0) (positioning properties all absent), and a sticky cycle
publishes a style carrying the GPU hint together with the positioning
property (position absolute in relative mode, fixed otherwise). -/
theorem c4_hw_hint_styles (p : StickyProps) (g : DomGeom) (s : Sample)
    (st : StickyState) (hw : p.disableHardwareAcceleration = false) :
    ((handleContainerEvent p g s st).isSticky = false →
      (handleContainerEvent p g s st).style
        = { transform := some "translateZ(0)" }) ∧
    ((handleContainerEvent p g s st).isSticky = true →
      (handleContainerEvent p g s st).style.transform = some "translateZ(0)" ∧
      (handleContainerEvent p g s st).style.position
        = some (if p.relative then "absolute" else "fixed")) := by
  constructor
  · intro h
    rw [handle_style_eq p g s st, h]
    simp [calculateStyle, applyHwAccel, hw]
  · intro h
    rw [handle_style_eq p g s st, h]
    cases hr : p.relative
    · simp [calculateStyle, applyHwAccel, hw, hr]
    · simp only [calculateStyle, applyHwAccel, hw, hr, Bool.not_false, if_true]
      split <;> simp

/-- C4 amended witness at a concrete sticky input. -/
theorem c4_hw_hint_styles_witness :
    ({} : StickyProps).disableHardwareAcceleration = false ∧
    (handleContainerEvent {} {}
        { distanceFromTop := some (-3), distanceFromBottom := some 100 }
        {}).isSticky = true ∧
    (handleContainerEvent {} {}
        { distanceFromTop := some (-3), distanceFromBottom := some 100 }
        {}).style.transform = some "translateZ(0)" :=
  ⟨rfl, by decide,
    ((c4_hw_hint_styles {} {}
        { distanceFromTop := some (-3), distanceFromBottom := some 100 }
        {} rfl).2 (by decide)).1⟩

/-- C5: the published wasSticky of a cycle is exactly the isSticky stored
by the previous cycle of the same instance (and from the broadcast sample
alone it is never recomputed from geometry): for any two consecutive
broadcasts, the second result carries wasSticky equal to the first result
isSticky. -/
theorem c5_wasSticky_is_previous_isSticky :
    (∀ (p : StickyProps) (g : DomGeom) (s : Sample) (st : StickyState),
        (handleContainerEvent p g s st).wasSticky = st.isSticky) ∧
    (∀ (p : StickyProps) (g1 g2 : DomGeom) (s1 s2 : Sample) (st : StickyState),
        (handleContainerEvent p g2 s2 (handleContainerEvent p g1 s1 st)).wasSticky
          = (handleContainerEvent p g1 s1 st).isSticky) := by
  exact ⟨fun p g s st => rfl, fun p g1 g2 s1 s2 st => rfl⟩

/-- C6: for any run of qualifying events between two frame boundaries
(starting from any pending-flag value), at most one frame callback is
scheduled; the pending flag is up exactly when it was already up or a
callback was just scheduled, and the callback clears it when it fires. -/
theorem c6_one_callback_per_frame :
    (∀ (framePending : Bool) (n : ℕ), schedCount framePending n ≤ 1) ∧
    (∀ framePending : Bool,
        (notifyStep framePending).1 = (framePending || (notifyStep framePending).2)) ∧
    (∀ framePending : Bool, frameFireStep framePending = false) := by
  refine ⟨fun b n => ?_, by decide, by decide⟩
  cases b
  · cases n
    · simp [schedCount]
    · simp [schedCount, notifyStep, schedCount_true]
  · simp [schedCount_true]

/-- C7: the claim says a listener unregistered during a broadcast is
excluded from the next broadcast.  The snapshot part holds (the invoked
list is exactly the snapshot), but the code disagrees on exclusion: when
the single snapshotted handler 1 unsubscribes itself during the broadcast,
the final registry is again [1] (unsubscribe re-appends it,
src/Container.tsx lines 41-46), so the next broadcast, whose snapshot is
that registry, invokes it again. -/
theorem c7_unsubscribed_still_next_broadcast :
    (runBroadcast (fun h => [h]) [1] [1]).1 = [1] ∧
    (runBroadcast (fun h => [h]) [1] [1]).2 = [1] ∧
    (runBroadcast (fun _ => []) ((runBroadcast (fun h => [h]) [1] [1]).2)
        ((runBroadcast (fun h => [h]) [1] [1]).2)).1 = [1] := by
  decide

/-- C8 counterexample: the claim says the sticky state does not change on a
cycle whose measurement found no mounted root node.  But starting from a
sticky state, a cycle fed the absent-distance sample computes
isSticky = false (undefined compares false in JS), so the state does
change. -/
theorem c8_sticky_state_changes_on_absent :
    ({ isSticky := true } : StickyState).isSticky = true ∧
    (handleContainerEvent {} {} (measureSample none)
        { isSticky := true }).isSticky = false := by
  exact ⟨rfl, rfl⟩

/-- C8 amended: with the root node unmounted the measured distances are
both absent; this propagates through the threshold algorithm without any
failure, the computed isSticky is false (so a non-sticky element stays
non-sticky, while an already-sticky element becomes non-sticky), the
absent bottom distance is stored as absent, and the previous isSticky is
still carried into wasSticky. -/
theorem c8_absent_distances_propagate :
    measureSample none
        = { distanceFromTop := none, distanceFromBottom := none } ∧
    ∀ (p : StickyProps) (g : DomGeom) (st : StickyState),
      (handleContainerEvent p g (measureSample none) st).isSticky = false ∧
      (handleContainerEvent p g (measureSample none) st).distanceFromBottom = none ∧
      (handleContainerEvent p g (measureSample none) st).wasSticky = st.isSticky := by
  refine ⟨rfl, fun p g st => ⟨?_, rfl, rfl⟩⟩
  simp [handle_isSticky_eq, measureSample, computeIsSticky, jsGt]

/-- C9: mounting a Sticky against a context without a subscribe capability
throws the TypeError synchronously; with the capability, the mount effect
performs exactly one subscription of the handler (appending exactly that
handler to any registry), and the unmount cleanup issues exactly one
unsubscribe of the same handler. -/
theorem c9_mount_contract :
    (∀ h : Handler, stickyMountEffect false h
        = Except.error "Expected Sticky to be mounted within StickyContainer") ∧
    (∀ h : Handler, stickyMountEffect true h = Except.ok [CtxAction.sub h]) ∧
    (∀ (h : Handler) (registry : List Handler),
        List.foldl applyAction registry [CtxAction.sub h] = registry ++ [h]) ∧
    (∀ h : Handler, stickyUnmountEffect h = [CtxAction.unsub h]) := by
  exact ⟨fun h => rfl, fun h => rfl, fun h registry => rfl, fun h => rfl⟩

/-- C10: the sticky decision is memoryless: two runs of the recomputation
handler with the same props, DOM geometry and sample but arbitrary
different previous states compute the same isSticky. -/
theorem c10_isSticky_memoryless :
    ∀ (p : StickyProps) (g : DomGeom) (s : Sample) (st1 st2 : StickyState),
      (handleContainerEvent p g s st1).isSticky
        = (handleContainerEvent p g s st2).isSticky := by
  exact fun p g s st1 st2 => rfl

end ReactSticky
